import Mathlib

/-!
# Verification of the Boa DAP debugger core

A shallow embedding of the DAP (Debug Adapter Protocol) debugger front-end of
the Boa JavaScript engine, covering:

* the debugger state machine (pause/resume/step-mode/breakpoints),
* the host-hook adapter and its wait-for-resume drain loop
  (`core/engine/src/debugger/dap/eval_context.rs`),
* the plain host hooks (`core/engine/src/debugger/host_hooks.rs`),
* the evaluation-worker task loop,
* the DAP session handlers (`core/engine/src/debugger/dap/session.rs`),
* the DAP server dispatcher (`core/engine/src/debugger/dap/server.rs`), and
* the CLI TCP sequence-number allocation (`cli/src/debug/dap.rs`).

Pure data is embedded as Lean structures; channel communication is embedded by
making the values received on a channel explicit arguments, and the
condition-variable wait loop is embedded as a function over the finite trace of
"rounds": what the task channel held at each drain, and the snapshot of the
debugger state observed under the mutex after that drain.
-/

namespace BoaDap

/-- Step mode of the debugger, `Debugger` state (spec §4.C / §3). -/
inductive StepMode where
  | noStep : StepMode
  | into : StepMode
  | over (frameDepth : Nat) : StepMode
  | out (frameDepth : Nat) : StepMode
  deriving DecidableEq, Repr

/-- Modelled from the spec: the `Debugger` state record of
`core/engine/src/debugger/state.rs`, which is not among the provided source
files (only its callers are).  Per spec §3 "Debugger state" and §4.C it holds
the `paused` and `shutting_down` flags, the step mode and the breakpoint table
(a map from script id and line to a breakpoint record; here the table is an
association list from the `(script, line)` key to the internal breakpoint id),
plus the attached flag read by `DebuggerHostHooks`. -/
structure Debugger where
  attached : Bool
  paused : Bool
  shuttingDown : Bool
  stepMode : StepMode
  breakpoints : List ((Nat × Nat) × Nat)
  nextBpId : Nat
  deriving DecidableEq, Repr

namespace Debugger

/-- Modelled from the spec (§4.C): a fresh debugger, nothing set. -/
def new : Debugger :=
  { attached := false, paused := false, shuttingDown := false
    stepMode := .noStep, breakpoints := [], nextBpId := 1 }

/-- Modelled from the spec (§4.C): `pause()` sets the paused flag. -/
def pause (d : Debugger) : Debugger := { d with paused := true }

/-- Modelled from the spec (§4.C): `resume()` clears the paused flag
(the condition-variable notification is modelled at the call sites that
perform it). -/
def resume (d : Debugger) : Debugger := { d with paused := false }

/-- Modelled from the spec (§4.C / §5): `shutdown()` sets the
shutting-down flag. -/
def shutdown (d : Debugger) : Debugger := { d with shuttingDown := true }

/-- Modelled from the spec (§4.C): `is_paused()`. -/
def isPaused (d : Debugger) : Bool := d.paused

/-- Modelled from the spec (§4.C): `is_shutting_down()`. -/
def isShuttingDown (d : Debugger) : Bool := d.shuttingDown

/-- Modelled from the spec (§4.C): `is_attached()`, read by
`DebuggerHostHooks::on_step`. -/
def isAttached (d : Debugger) : Bool := d.attached

/-- Modelled from the spec (§4.C): `set_step_mode(m)`. -/
def setStepMode (d : Debugger) (m : StepMode) : Debugger := { d with stepMode := m }

/-- Modelled from the spec (§4.F / §6): `step_over(frame_depth)` used by
`DebugSession::handle_next` sets the `Over(d)` step mode. -/
def stepOver (d : Debugger) (frameDepth : Nat) : Debugger :=
  d.setStepMode (.over frameDepth)

/-- Modelled from the spec (§4.F / §6): `step_in()` used by
`DebugSession::handle_step_in` sets the `Into` step mode. -/
def stepInto (d : Debugger) : Debugger := d.setStepMode .into

/-- Modelled from the spec (§4.F / §6): `step_out(frame_depth)` used by
`DebugSession::handle_step_out` sets the `Out(d)` step mode. -/
def stepOut (d : Debugger) (frameDepth : Nat) : Debugger :=
  d.setStepMode (.out frameDepth)

/-- Modelled from the spec (§4.C): `set_breakpoint(script, line) → id`
inserts a breakpoint into the per-script line map (replacing any breakpoint
already at that `(script, line)` key) and returns a fresh internal id. -/
def setBreakpoint (d : Debugger) (script line : Nat) : Nat × Debugger :=
  (d.nextBpId,
   { d with
      breakpoints :=
        ((script, line), d.nextBpId) ::
          d.breakpoints.filter (fun e => e.1 ≠ (script, line))
      nextBpId := d.nextBpId + 1 })

/-- Modelled from the spec (§4.C): `has_breakpoint(script, pc) → bool`;
line-to-pc mapping is left to the interpreter collaborator, so the table is
keyed directly by the recorded location. -/
def hasBreakpoint (d : Debugger) (script pc : Nat) : Bool :=
  d.breakpoints.any (fun e => e.1 = (script, pc))

/-- Modelled from the spec (§4.C): `should_pause_for_step(current_frame_depth)`:
`None → false`; `Into → true`; `Over(d) → current_depth ≤ d`;
`Out(d) → current_depth < d`. -/
def shouldPauseForStep (d : Debugger) (currentFrameDepth : Nat) : Bool :=
  match d.stepMode with
  | .noStep => false
  | .into => true
  | .over fd => currentFrameDepth ≤ fd
  | .out fd => currentFrameDepth < fd

end Debugger

/-- Stack frame information, `StackFrameInfo` of
`dap/eval_context.rs` (lines 49-56). -/
structure StackFrameInfo where
  functionName : String
  sourcePath : String
  lineNumber : Nat
  columnNumber : Nat
  pc : Nat
  deriving DecidableEq, Repr

/-- Task sent to the evaluation thread, `EvalTask` of
`dap/eval_context.rs` (lines 23-46).  Reply channels (`result_tx`) are left
implicit: a value sent on one appears as a `Reply` in the output of the
functions below. -/
inductive EvalTask where
  | execute (source : String)
  | executeNonBlocking (source : String) (filePath : Option String)
  | getStackTrace
  | evaluate (expression : String)
  | terminate
  deriving DecidableEq, Repr

/-- Event sent from the eval thread to the DAP server, `DebugEvent` of
`dap/eval_context.rs` (lines 11-20).  The enum in the source has exactly the
two variants `Stopped` and `Shutdown`. -/
inductive DebugEvent where
  | stopped (reason : String) (description : Option String)
  | shutdown
  deriving DecidableEq, Repr

deriving instance DecidableEq for Except

/-- A value sent back on one of the per-task reply channels. -/
inductive Reply where
  | execResult (r : Except String String)
  | stackTrace (r : Except String (List StackFrameInfo))
  | evalResult (r : Except String String)
  deriving DecidableEq, Repr

/-- The part of the interpreter `Context` the debugger hooks read.
`callStack` is the frame list produced by `DebugApi::get_call_stack` after the
per-frame field extraction of `process_inspection_task`; `currentFrame` is the
display string of `DebugApi::get_current_frame` (`DebugApi` lives in
`debugger/api.rs`, not among the provided sources; modelled from the spec's
read-only stack-access interface, §1 and §4.D). -/
structure EvalCtx where
  callStack : List StackFrameInfo
  currentFrame : String
  deriving DecidableEq, Repr

/-- `DebugHooks::process_inspection_task` (`dap/eval_context.rs` lines
343-367): `GetStackTrace` replies with the call stack, `Evaluate` replies with
the sentinel string; any other task is not an inspection task (`none`). -/
def processInspectionTask (ctx : EvalCtx) : EvalTask → Option Reply
  | .getStackTrace => some (.stackTrace (.ok ctx.callStack))
  | .evaluate expression =>
      some (.evalResult (.ok ("Evaluation not yet implemented: " ++ expression)))
  | _ => none

/-- One round of the `wait_for_resume` loop: the tasks found in the channel
during the non-blocking drain (in arrival order, until `try_recv` reports
`Empty`), followed by the `paused` / `shutting_down` snapshot observed when the
debugger mutex is then taken.  A subsequent round exists only when the loop
went to sleep on the condition variable and was woken. -/
structure WaitRound where
  tasks : List EvalTask
  paused : Bool
  shuttingDown : Bool
  deriving DecidableEq, Repr

/-- Result of `wait_for_resume`. -/
inductive WaitResult where
  /-- Returned `Ok(())`: the paused flag was observed clear. -/
  | ok
  /-- Returned the "Eval thread terminating" error on a `Terminate` task. -/
  | errTerminating
  /-- Returned the "Debugger shutting down" error. -/
  | errShutdown
  /-- The trace of rounds ended with the thread still parked on the condvar. -/
  | stillWaiting
  deriving DecidableEq, Repr

/-- The inner drain of `wait_for_resume` (`dap/eval_context.rs` lines
377-410): dispatch the drained tasks in order.  `Execute` and
`ExecuteNonBlocking` are dropped (logged only, no evaluation and no reply);
`Terminate` aborts the drain and makes the loop return the terminating error
(`true` in the second component; the rest of the list is left unread);
inspection tasks are serviced inline via `process_inspection_task` and their
replies sent. -/
def drainTasks (ctx : EvalCtx) : List EvalTask → List Reply × Bool
  | [] => ([], false)
  | .execute _ :: rest => drainTasks ctx rest
  | .executeNonBlocking _ _ :: rest => drainTasks ctx rest
  | .terminate :: _ => ([], true)
  | .getStackTrace :: rest =>
      let (rs, b) := drainTasks ctx rest
      (.stackTrace (.ok ctx.callStack) :: rs, b)
  | .evaluate e :: rest =>
      let (rs, b) := drainTasks ctx rest
      (.evalResult (.ok ("Evaluation not yet implemented: " ++ e)) :: rs, b)

/-- `DebugHooks::wait_for_resume` (`dap/eval_context.rs` lines 371-440) over a
finite trace of rounds: drain the channel; then take the debugger mutex; if no
longer paused return `Ok`; if shutting down return the shutdown error;
otherwise sleep on the condition variable, i.e. continue with the next round.
The collected replies of all executed drains are returned alongside. -/
def waitForResume (ctx : EvalCtx) : List WaitRound → List Reply × WaitResult
  | [] => ([], .stillWaiting)
  | r :: rest =>
      let (replies, term) := drainTasks ctx r.tasks
      if term then (replies, .errTerminating)
      else if r.paused = false then (replies, .ok)
      else if r.shuttingDown then (replies, .errShutdown)
      else
        let (rs, res) := waitForResume ctx rest
        (replies ++ rs, res)

/-- `DebugHooks::on_debugger_statement` (`dap/eval_context.rs` lines 300-319):
pause the debugger, send the `Stopped { reason: "pause" }` event, and enter
`wait_for_resume`.  Output: the debugger state after `pause()`, the events
sent on the event channel before waiting, and the wait loop's outcome. -/
def onDebuggerStatement (ctx : EvalCtx) (dbg : Debugger) (rounds : List WaitRound) :
    Debugger × List DebugEvent × (List Reply × WaitResult) :=
  (dbg.pause,
   [.stopped "pause" (some ("Paused on debugger statement at " ++ ctx.currentFrame))],
   waitForResume ctx rounds)

/-- `DebugHooks::on_step` (`dap/eval_context.rs` lines 321-337): if the
debugger is paused at hook entry, send `Stopped { reason: "step" }` and enter
`wait_for_resume`; otherwise return immediately. -/
def dapHooksOnStep (ctx : EvalCtx) (pausedAtEntry : Bool) (rounds : List WaitRound) :
    List DebugEvent × (List Reply × WaitResult) :=
  if pausedAtEntry then
    ([.stopped "step" (some "Paused on step")], waitForResume ctx rounds)
  else
    ([], ([], .ok))

/-- A VM frame as read by `DebuggerHostHooks::on_step`
(`debugger/host_hooks.rs` lines 54-58): program counter, the current frame
depth `context.vm.frames.len()`, and the optional script id of the frame's
code block. -/
structure FrameInfo where
  pc : Nat
  depth : Nat
  scriptId : Option Nat
  deriving DecidableEq, Repr

/-- `DebuggerHostHooks::on_step` (`debugger/host_hooks.rs` lines 46-86): skip
when not attached; pause when `should_pause_for_step` holds for the frame
depth; additionally pause when the frame's script has a breakpoint at the
current pc; then spin-wait while paused.  The hook has no event channel, so
the second component (events sent) is always empty. -/
def hostHooksOnStep (dbg : Debugger) (frame : FrameInfo) : Debugger × List DebugEvent :=
  if dbg.isAttached = false then (dbg, [])
  else
    let d1 := if dbg.shouldPauseForStep frame.depth then dbg.pause else dbg
    let d2 :=
      match frame.scriptId with
      | some sid => if d1.hasBreakpoint sid frame.pc then d1.pause else d1
      | none => d1
    (d2, [])

/-- `DebuggerHostHooks::on_debugger_statement` (`debugger/host_hooks.rs` lines
88-99): pause when attached; no events. -/
def hostHooksOnDebuggerStatement (dbg : Debugger) : Debugger × List DebugEvent :=
  if dbg.isAttached = false then (dbg, []) else (dbg.pause, [])

/-- The outcome of `context.eval` / `context.run_jobs` as observed by the
worker loop; the interpreter itself is an external collaborator (spec §1), so
its results are inputs of the model. -/
structure EvalEnv where
  runEval : String → Except String String
  runJobs : Except String Unit

/-- The per-task body of the eval-thread loop of `DebugEvalContext::new`
(`dap/eval_context.rs` lines 132-181): the replies sent, the debug events
emitted, and whether the loop continues.  `Execute` replies with the
string-coerced result or the error; `ExecuteNonBlocking` evaluates, logs the
outcome, runs pending jobs, and sends neither a reply nor any event;
`Terminate` breaks the loop; inspection tasks are serviced via
`process_inspection_task`. -/
def workerTask (env : EvalEnv) (ctx : EvalCtx) :
    EvalTask → List Reply × List DebugEvent × Bool
  | .execute source =>
      match env.runEval source with
      | .ok v => ([.execResult (.ok v)], [], true)
      | .error e => ([.execResult (.error e)], [], true)
  | .executeNonBlocking source _ =>
      match env.runEval source, env.runJobs with
      | .ok _, _ => ([], [], true)
      | .error _, _ => ([], [], true)
  | .terminate => ([], [], false)
  | t =>
      match processInspectionTask ctx t with
      | some r => ([r], [], true)
      | none => ([], [], true)

/-! ## Message catalog (`dap/messages.rs`)

The typed request-argument and response-body records.  Serialization is out of
scope; field names keep the Rust names in camel case.  In `Source` the fields
`sources`, `adapter_data` and `checksums` are omitted: they are never read or
constructed by any of the embedded code. -/

/-- `InitializeRequestArguments` (`dap/messages.rs` lines 12-41). -/
structure InitializeRequestArguments where
  clientId : Option String
  clientName : Option String
  adapterId : Option String
  locale : Option String
  linesStartAt1 : Bool
  columnsStartAt1 : Bool
  pathFormat : Option String
  supportsVariableType : Bool
  supportsVariablePaging : Bool
  supportsRunInTerminalRequest : Bool
  supportsMemoryReferences : Bool
  supportsProgressReporting : Bool
  supportsInvalidatedEvent : Bool
  deriving DecidableEq, Repr

/-- `LaunchRequestArguments` (`dap/messages.rs` lines 43-58). -/
structure LaunchRequestArguments where
  noDebug : Option Bool
  program : Option String
  args : Option (List String)
  cwd : Option String
  env : Option (List (String × String))
  stopOnEntry : Option Bool
  deriving DecidableEq, Repr

/-- `AttachRequestArguments` (`dap/messages.rs` lines 60-67). -/
structure AttachRequestArguments where
  port : Option Nat
  address : Option String
  deriving DecidableEq, Repr

/-- `Source` (`dap/messages.rs` lines 313-332), without the never-read
`sources` / `adapter_data` / `checksums` fields. -/
structure Source where
  name : Option String
  path : Option String
  sourceReference : Option Int
  presentationHint : Option String
  origin : Option String
  deriving DecidableEq, Repr

/-- `SourceBreakpoint` (`dap/messages.rs` lines 81-93). -/
structure SourceBreakpoint where
  line : Int
  column : Option Int
  condition : Option String
  hitCondition : Option String
  logMessage : Option String
  deriving DecidableEq, Repr

/-- `SetBreakpointsArguments` (`dap/messages.rs` lines 69-79). -/
structure SetBreakpointsArguments where
  source : Source
  breakpoints : Option (List SourceBreakpoint)
  lines : Option (List Int)
  sourceModified : Option Bool
  deriving DecidableEq, Repr

/-- `ContinueArguments` (`dap/messages.rs` lines 95-101). -/
structure ContinueArguments where
  threadId : Int
  singleThread : Option Bool
  deriving DecidableEq, Repr

/-- `NextArguments` (`dap/messages.rs` lines 103-111). -/
structure NextArguments where
  threadId : Int
  singleThread : Option Bool
  granularity : Option String
  deriving DecidableEq, Repr

/-- `StepInArguments` (`dap/messages.rs` lines 113-123). -/
structure StepInArguments where
  threadId : Int
  singleThread : Option Bool
  targetId : Option Int
  granularity : Option String
  deriving DecidableEq, Repr

/-- `StepOutArguments` (`dap/messages.rs` lines 125-133). -/
structure StepOutArguments where
  threadId : Int
  singleThread : Option Bool
  granularity : Option String
  deriving DecidableEq, Repr

/-- `StackTraceArguments` (`dap/messages.rs` lines 135-145); the optional
`format` record is never read, so it is kept abstract as a unit marker. -/
structure StackTraceArguments where
  threadId : Int
  startFrame : Option Int
  levels : Option Int
  deriving DecidableEq, Repr

/-- `ScopesArguments` (`dap/messages.rs` lines 147-151). -/
structure ScopesArguments where
  frameId : Int
  deriving DecidableEq, Repr

/-- `ValueFormat` (`dap/messages.rs` lines 454-459). -/
structure ValueFormat where
  hex : Option Bool
  deriving DecidableEq, Repr

/-- `VariablesArguments` (`dap/messages.rs` lines 153-165). -/
structure VariablesArguments where
  variablesReference : Int
  filter : Option String
  start : Option Int
  count : Option Int
  format : Option ValueFormat
  deriving DecidableEq, Repr

/-- `EvaluateArguments` (`dap/messages.rs` lines 167-177). -/
structure EvaluateArguments where
  expression : String
  frameId : Option Int
  context : Option String
  format : Option ValueFormat
  deriving DecidableEq, Repr

/-- `Capabilities` (`dap/messages.rs` lines 192-253). -/
structure Capabilities where
  supportsConfigurationDoneRequest : Bool
  supportsFunctionBreakpoints : Bool
  supportsConditionalBreakpoints : Bool
  supportsHitConditionalBreakpoints : Bool
  supportsEvaluateForHovers : Bool
  supportsStepBack : Bool
  supportsSetVariable : Bool
  supportsRestartFrame : Bool
  supportsGotoTargetsRequest : Bool
  supportsStepInTargetsRequest : Bool
  supportsCompletionsRequest : Bool
  supportsModulesRequest : Bool
  supportsRestartRequest : Bool
  supportsExceptionOptions : Bool
  supportsValueFormattingOptions : Bool
  supportsExceptionInfoRequest : Bool
  supportsTerminateDebuggee : Bool
  supportsDelayedStackTraceLoading : Bool
  supportsLoadedSourcesRequest : Bool
  supportsLogPoints : Bool
  supportsTerminateThreadsRequest : Bool
  supportsSetExpression : Bool
  supportsTerminateRequest : Bool
  supportsDataBreakpoints : Bool
  supportsReadMemoryRequest : Bool
  supportsDisassembleRequest : Bool
  supportsCancelRequest : Bool
  supportsBreakpointLocationsRequest : Bool
  supportsClipboardContext : Bool
  deriving DecidableEq, Repr

/-- `Breakpoint` (`dap/messages.rs` lines 341-359). -/
structure Breakpoint where
  id : Option Int
  verified : Bool
  message : Option String
  source : Option Source
  line : Option Int
  column : Option Int
  endLine : Option Int
  endColumn : Option Int
  deriving DecidableEq, Repr

/-- `SetBreakpointsResponseBody` (`dap/messages.rs` lines 255-259). -/
structure SetBreakpointsResponseBody where
  breakpoints : List Breakpoint
  deriving DecidableEq, Repr

/-- `ContinueResponseBody` (`dap/messages.rs` lines 261-266). -/
structure ContinueResponseBody where
  allThreadsContinued : Bool
  deriving DecidableEq, Repr

/-- `Scope` (`dap/messages.rs` lines 384-406). -/
structure Scope where
  name : String
  presentationHint : Option String
  variablesReference : Int
  namedVariables : Option Int
  indexedVariables : Option Int
  expensive : Bool
  source : Option Source
  line : Option Int
  column : Option Int
  endLine : Option Int
  endColumn : Option Int
  deriving DecidableEq, Repr

/-- `ScopesResponseBody` (`dap/messages.rs` lines 276-280). -/
structure ScopesResponseBody where
  scopes : List Scope
  deriving DecidableEq, Repr

/-- `VariablePresentationHint` (`dap/messages.rs` lines 461-470). -/
structure VariablePresentationHint where
  kind : Option String
  attributes : Option (List String)
  visibility : Option String
  deriving DecidableEq, Repr

/-- `Variable` (`dap/messages.rs` lines 408-426). -/
structure Variable where
  name : String
  value : String
  typeName : Option String
  presentationHint : Option VariablePresentationHint
  evaluateName : Option String
  variablesReference : Int
  namedVariables : Option Int
  indexedVariables : Option Int
  memoryReference : Option String
  deriving DecidableEq, Repr

/-- `VariablesResponseBody` (`dap/messages.rs` lines 282-286). -/
structure VariablesResponseBody where
  «variables» : List Variable
  deriving DecidableEq, Repr

/-- `EvaluateResponseBody` (`dap/messages.rs` lines 288-301). -/
structure EvaluateResponseBody where
  result : String
  typeName : Option String
  presentationHint : Option VariablePresentationHint
  variablesReference : Int
  namedVariables : Option Int
  indexedVariables : Option Int
  deriving DecidableEq, Repr

/-- `Thread` (`dap/messages.rs` lines 428-433). -/
structure Thread where
  id : Int
  name : String
  deriving DecidableEq, Repr

/-- `ThreadsResponseBody` (`dap/messages.rs` lines 303-307). -/
structure ThreadsResponseBody where
  threads : List Thread
  deriving DecidableEq, Repr

/-- `OutputEventBody` (`dap/messages.rs` lines 509-526), without the
never-read `data` field. -/
structure OutputEventBody where
  category : Option String
  output : String
  group : Option String
  variablesReference : Option Int
  source : Option Source
  line : Option Int
  column : Option Int
  deriving DecidableEq, Repr

/-- `TerminatedEventBody` (`dap/messages.rs` lines 528-533); `restart` is
kept as an opaque optional marker. -/
structure TerminatedEventBody where
  restart : Option Unit
  deriving DecidableEq, Repr

/-! ## Debug session (`dap/session.rs`) -/

/-- `ScopeType` (`dap/session.rs` lines 68-73). -/
inductive ScopeType where
  | localScope
  | globalScope
  | closure
  deriving DecidableEq, Repr

/-- `VariableReference` (`dap/session.rs` lines 57-66). -/
inductive VariableReference where
  | scope (frameId : Int) (scopeType : ScopeType)
  | object (objectId : String)
  deriving DecidableEq, Repr

/-- `DebugSession` state (`dap/session.rs` lines 18-55); the
`eval_context : Option<DebugEvalContext>` handle is modelled by the Boolean
`evalContextPresent`, and the condition variable by the notification flags
returned from the operations that notify it. -/
structure DebugSession where
  debugger : Debugger
  evalContextPresent : Bool
  programPath : Option String
  sourceToScript : List (String × Nat)
  breakpointMapping : List (Int × Nat)
  nextBreakpointId : Int
  initialized : Bool
  running : Bool
  threadId : Int
  stoppedReason : Option String
  variableReferences : List (Int × VariableReference)
  nextVariableReference : Int
  deriving DecidableEq, Repr

namespace DebugSession

/-- `DebugSession::new` (`dap/session.rs` lines 77-93). -/
def new (dbg : Debugger) : DebugSession :=
  { debugger := dbg
    evalContextPresent := false
    programPath := none
    sourceToScript := []
    breakpointMapping := []
    nextBreakpointId := 1
    initialized := false
    running := false
    threadId := 1
    stoppedReason := none
    variableReferences := []
    nextVariableReference := 1 }

/-- `DebugSession::resume` (`dap/session.rs` lines 101-107): resume the
debugger, set `running`, clear `stopped_reason`, and notify the condition
variable (the returned Boolean records that `condvar.notify_all()` ran). -/
def resume (s : DebugSession) : DebugSession × Bool :=
  ({ s with
      debugger := s.debugger.resume
      running := true
      stoppedReason := none }, true)

/-- `DebugSession::handle_initialize` (`dap/session.rs` lines 115-152): set
`initialized` and return the capability record. -/
def handleInitialize (s : DebugSession) (_args : InitializeRequestArguments) :
    DebugSession × Capabilities :=
  ({ s with initialized := true },
   { supportsConfigurationDoneRequest := true
     supportsFunctionBreakpoints := false
     supportsConditionalBreakpoints := true
     supportsHitConditionalBreakpoints := true
     supportsEvaluateForHovers := true
     supportsStepBack := false
     supportsSetVariable := false
     supportsRestartFrame := false
     supportsGotoTargetsRequest := false
     supportsStepInTargetsRequest := false
     supportsCompletionsRequest := false
     supportsModulesRequest := false
     supportsRestartRequest := false
     supportsExceptionOptions := false
     supportsValueFormattingOptions := true
     supportsExceptionInfoRequest := false
     supportsTerminateDebuggee := true
     supportsDelayedStackTraceLoading := false
     supportsLoadedSourcesRequest := false
     supportsLogPoints := true
     supportsTerminateThreadsRequest := false
     supportsSetExpression := false
     supportsTerminateRequest := true
     supportsDataBreakpoints := false
     supportsReadMemoryRequest := false
     supportsDisassembleRequest := false
     supportsCancelRequest := false
     supportsBreakpointLocationsRequest := false
     supportsClipboardContext := false })

/-- `DebugSession::handle_launch` (`dap/session.rs` lines 160-228) as far as
the session state is concerned: store the program path, create the eval
context, clear `running`, and (when a program path is present) submit the
non-blocking execution task.  The submitted tasks are returned; as in the
source (line 219) the stored path string itself is passed to
`execute_async`. -/
def handleLaunch (s : DebugSession) (args : LaunchRequestArguments) :
    DebugSession × List EvalTask :=
  let s1 := { s with
                programPath := args.program
                evalContextPresent := true
                running := false }
  match s1.programPath with
  | some p => (s1, [.executeNonBlocking p none])
  | none => (s1, [])

/-- `DebugSession::handle_attach` (`dap/session.rs` lines 246-249): no-op. -/
def handleAttach (s : DebugSession) (_args : AttachRequestArguments) : DebugSession := s

/-- The loop body of `DebugSession::handle_set_breakpoints`
(`dap/session.rs` lines 273-297): for each requested source breakpoint, set a
debugger breakpoint at `(script, line)`, allocate a DAP id, record the id
mapping, and append the response record (always `verified`). -/
def setBreakpointsLoop (src : Source) (scriptId : Nat) :
    DebugSession → List SourceBreakpoint → DebugSession × List Breakpoint
  | s, [] => (s, [])
  | s, bp :: rest =>
      let (boaBpId, dbg) := s.debugger.setBreakpoint scriptId bp.line.toNat
      let dapBpId := s.nextBreakpointId
      let s1 := { s with
                    debugger := dbg
                    nextBreakpointId := s.nextBreakpointId + 1
                    breakpointMapping := (dapBpId, boaBpId) :: s.breakpointMapping }
      let (s2, bps) := setBreakpointsLoop src scriptId s1 rest
      (s2,
       { id := some dapBpId
         verified := true
         message := none
         source := some src
         line := some bp.line
         column := bp.column
         endLine := none
         endColumn := none } :: bps)

/-- `DebugSession::handle_set_breakpoints` (`dap/session.rs` lines 252-301):
resolve the source path (`path`, else `name`, else "unknown"), fetch the
script id from `source_to_script` or insert the placeholder `ScriptId(0)`,
then run the loop over the requested breakpoints (skipped entirely when the
`breakpoints` field is absent). -/
def handleSetBreakpoints (s : DebugSession) (args : SetBreakpointsArguments) :
    DebugSession × SetBreakpointsResponseBody :=
  let sourcePath := args.source.path.getD (args.source.name.getD "unknown")
  let (scriptId, s1) :=
    match s.sourceToScript.lookup sourcePath with
    | some sid => (sid, s)
    | none => (0, { s with sourceToScript := (sourcePath, 0) :: s.sourceToScript })
  match args.breakpoints with
  | some sourceBreakpoints =>
      let (s2, bps) := setBreakpointsLoop args.source scriptId s1 sourceBreakpoints
      (s2, { breakpoints := bps })
  | none => (s1, { breakpoints := [] })

/-- `DebugSession::handle_continue` (`dap/session.rs` lines 304-310): resume
and answer `all_threads_continued`. -/
def handleContinue (s : DebugSession) (_args : ContinueArguments) :
    (DebugSession × Bool) × ContinueResponseBody :=
  (s.resume, { allThreadsContinued := true })

/-- `DebugSession::handle_next` (`dap/session.rs` lines 313-318): set the
step-over mode, set `running`, clear `stopped_reason`.  The Boolean records
whether the condition variable was notified during handling. -/
def handleNext (s : DebugSession) (_args : NextArguments) (frameDepth : Nat) :
    DebugSession × Bool :=
  ({ s with
      debugger := s.debugger.stepOver frameDepth
      running := true
      stoppedReason := none }, false)

/-- `DebugSession::handle_step_in` (`dap/session.rs` lines 321-326). -/
def handleStepIn (s : DebugSession) (_args : StepInArguments) : DebugSession × Bool :=
  ({ s with
      debugger := s.debugger.stepInto
      running := true
      stoppedReason := none }, false)

/-- `DebugSession::handle_step_out` (`dap/session.rs` lines 329-334). -/
def handleStepOut (s : DebugSession) (_args : StepOutArguments) (frameDepth : Nat) :
    DebugSession × Bool :=
  ({ s with
      debugger := s.debugger.stepOut frameDepth
      running := true
      stoppedReason := none }, false)

/-- `DebugSession::handle_scopes` (`dap/session.rs` lines 386-438): allocate
two fresh variable references (Local, then Global) bound to the frame and
return the two scopes. -/
def handleScopes (s : DebugSession) (args : ScopesArguments) :
    DebugSession × ScopesResponseBody :=
  let localRef := s.nextVariableReference
  let globalRef := s.nextVariableReference + 1
  let s1 := { s with
                nextVariableReference := s.nextVariableReference + 2
                variableReferences :=
                  (globalRef, VariableReference.scope args.frameId .globalScope) ::
                    (localRef, VariableReference.scope args.frameId .localScope) ::
                      s.variableReferences }
  (s1,
   { scopes :=
      [{ name := "Local", presentationHint := some "locals"
         variablesReference := localRef, namedVariables := none
         indexedVariables := none, expensive := false, source := none
         line := none, column := none, endLine := none, endColumn := none },
       { name := "Global", presentationHint := some "globals"
         variablesReference := globalRef, namedVariables := none
         indexedVariables := none, expensive := false, source := none
         line := none, column := none, endLine := none, endColumn := none }] })

/-- `DebugSession::handle_variables` (`dap/session.rs` lines 441-448): the
arguments are ignored and the variable list is always empty. -/
def handleVariables (s : DebugSession) (_args : VariablesArguments) :
    DebugSession × VariablesResponseBody :=
  (s, { «variables» := [] })

/-- The reply the session receives from the worker for a blocking
`evaluate` dispatch; channel communication made explicit. -/
structure WorkerEnv where
  evaluateReply : String → Except String String

/-- `DebugSession::handle_evaluate` (`dap/session.rs` lines 451-467): when the
eval context exists, dispatch to the worker and propagate its error as the
handler's error; otherwise answer with the "not initialized" text. -/
def handleEvaluate (env : WorkerEnv) (s : DebugSession) (args : EvaluateArguments) :
    Except String EvaluateResponseBody :=
  let result? : Except String String :=
    if s.evalContextPresent then env.evaluateReply args.expression
    else .ok ("Evaluation context not initialized: " ++ args.expression)
  match result? with
  | .error e => .error e
  | .ok result =>
      .ok { result := result
            typeName := some "string"
            presentationHint := none
            variablesReference := 0
            namedVariables := none
            indexedVariables := none }

/-- `DebugSession::handle_threads` (`dap/session.rs` lines 470-477). -/
def handleThreads (s : DebugSession) : DebugSession × ThreadsResponseBody :=
  (s, { threads := [{ id := s.threadId, name := "Main Thread" }] })

end DebugSession

/-! ## Protocol messages and the DAP server (`dap/mod.rs`, `dap/server.rs`)

Request arguments arrive on the wire as JSON; here they are carried as a
typed sum `ArgsVal`, and serde decoding of a command's argument record is the
partial projection onto the matching variant (a missing or mismatched payload
is the decode failure, which in the source carries the serde error text into
the failed response's message). -/

/-- The decoded `arguments` payload of a request. -/
inductive ArgsVal where
  | initReq (a : InitializeRequestArguments)
  | launch (a : LaunchRequestArguments)
  | attach (a : AttachRequestArguments)
  | setBreakpoints (a : SetBreakpointsArguments)
  | cont (a : ContinueArguments)
  | next (a : NextArguments)
  | stepIn (a : StepInArguments)
  | stepOut (a : StepOutArguments)
  | stackTrace (a : StackTraceArguments)
  | scopes (a : ScopesArguments)
  | «variables» (a : VariablesArguments)
  | evaluate (a : EvaluateArguments)
  deriving DecidableEq, Repr

/-- A typed response/event body (`serde_json::to_value` of the typed body
records in the source). -/
inductive Body where
  | capabilities (c : Capabilities)
  | setBreakpoints (b : SetBreakpointsResponseBody)
  | continueResult (b : ContinueResponseBody)
  | scopes (b : ScopesResponseBody)
  | «variables» (b : VariablesResponseBody)
  | evaluate (b : EvaluateResponseBody)
  | threads (b : ThreadsResponseBody)
  | output (b : OutputEventBody)
  | terminated (b : TerminatedEventBody)
  deriving DecidableEq, Repr

/-- `Request` (`dap/mod.rs` lines 44-50). -/
structure Request where
  seq : Int
  command : String
  arguments : Option ArgsVal
  deriving DecidableEq, Repr

/-- `Response` (`dap/mod.rs` lines 52-63). -/
structure Response where
  seq : Int
  requestSeq : Int
  success : Bool
  command : String
  message : Option String
  body : Option Body
  deriving DecidableEq, Repr

/-- `Event` (`dap/mod.rs` lines 65-72). -/
structure Event where
  seq : Int
  event : String
  body : Option Body
  deriving DecidableEq, Repr

/-- `ProtocolMessage` (`dap/mod.rs` lines 31-41). -/
inductive ProtocolMessage where
  | request (r : Request)
  | response (r : Response)
  | event (e : Event)
  deriving DecidableEq, Repr

/-- `ProtocolMessage::seq` (`dap/mod.rs` lines 74-82). -/
def ProtocolMessage.seq : ProtocolMessage → Int
  | .request r => r.seq
  | .response r => r.seq
  | .event e => e.seq

/-- Whether a protocol message is an event. -/
def ProtocolMessage.isEvent : ProtocolMessage → Bool
  | .event _ => true
  | _ => false

/-- `DapServer` state (`dap/server.rs` lines 12-21): the session, the outbound
sequence counter, and the initialized flag. -/
structure DapServer where
  session : DebugSession
  seq : Int
  initialized : Bool
  deriving DecidableEq, Repr

namespace DapServer

/-- `DapServer::new` (`dap/server.rs` lines 24-31): the sequence counter
starts at 1. -/
def new (session : DebugSession) : DapServer :=
  { session := session, seq := 1, initialized := false }

/-- `DapServer::next_seq` (`dap/server.rs` lines 33-38): return the current
counter and post-increment it. -/
def nextSeq (st : DapServer) : Int × DapServer :=
  (st.seq, { st with seq := st.seq + 1 })

/-- `DapServer::create_response` (`dap/server.rs` lines 389-406). -/
def createResponse (st : DapServer) (requestSeq : Int) (command : String)
    (success : Bool) (message : Option String) (body : Option Body) :
    ProtocolMessage × DapServer :=
  let (s, st') := st.nextSeq
  (.response
     { seq := s, requestSeq := requestSeq, success := success
       command := command, message := message, body := body }, st')

/-- `DapServer::create_event` (`dap/server.rs` lines 408-419). -/
def createEvent (st : DapServer) (event : String) (body : Option Body) :
    ProtocolMessage × DapServer :=
  let (s, st') := st.nextSeq
  (.event { seq := s, event := event, body := body }, st')

/-- The `serde_json::from_value::<...>(arguments.unwrap_or(Null))` step of each
typed handler, written once per argument type as the projection onto the
matching `ArgsVal` variant; anything else (including an absent payload, since
a struct does not deserialize from `Null`) is the decode error that the
handler turns into `Err`. -/
def decodeInitialize : Option ArgsVal → Except String InitializeRequestArguments
  | some (.initReq a) => .ok a
  | _ => .error "Invalid arguments"

/-- Decode for `launch`; see `decodeInitialize`. -/
def decodeLaunch : Option ArgsVal → Except String LaunchRequestArguments
  | some (.launch a) => .ok a
  | _ => .error "Invalid arguments"

/-- Decode for `attach`; see `decodeInitialize`. -/
def decodeAttach : Option ArgsVal → Except String AttachRequestArguments
  | some (.attach a) => .ok a
  | _ => .error "Invalid arguments"

/-- Decode for `setBreakpoints`; see `decodeInitialize`. -/
def decodeSetBreakpoints : Option ArgsVal → Except String SetBreakpointsArguments
  | some (.setBreakpoints a) => .ok a
  | _ => .error "Invalid arguments"

/-- Decode for `continue`; see `decodeInitialize`. -/
def decodeContinue : Option ArgsVal → Except String ContinueArguments
  | some (.cont a) => .ok a
  | _ => .error "Invalid arguments"

/-- Decode for `next`; see `decodeInitialize`. -/
def decodeNext : Option ArgsVal → Except String NextArguments
  | some (.next a) => .ok a
  | _ => .error "Invalid arguments"

/-- Decode for `stepIn`; see `decodeInitialize`. -/
def decodeStepIn : Option ArgsVal → Except String StepInArguments
  | some (.stepIn a) => .ok a
  | _ => .error "Invalid arguments"

/-- Decode for `stepOut`; see `decodeInitialize`. -/
def decodeStepOut : Option ArgsVal → Except String StepOutArguments
  | some (.stepOut a) => .ok a
  | _ => .error "Invalid arguments"

/-- Decode for `scopes`; see `decodeInitialize`. -/
def decodeScopes : Option ArgsVal → Except String ScopesArguments
  | some (.scopes a) => .ok a
  | _ => .error "Invalid arguments"

/-- Decode for `variables`; see `decodeInitialize`. -/
def decodeVariables : Option ArgsVal → Except String VariablesArguments
  | some (.«variables» a) => .ok a
  | _ => .error "Invalid arguments"

/-- Decode for `evaluate`; see `decodeInitialize`. -/
def decodeEvaluate : Option ArgsVal → Except String EvaluateArguments
  | some (.evaluate a) => .ok a
  | _ => .error "Invalid arguments"

/-- `DapServer::handle_initialize` (`dap/server.rs` lines 135-155): decode,
run the session handler, set the server's initialized flag, and return the
single success response carrying the capability record.  No `initialized`
event is produced here (or anywhere else in the dispatcher). -/
def handleInitialize (st : DapServer) (req : Request) :
    Except String (DapServer × List ProtocolMessage) := do
  let args ← decodeInitialize req.arguments
  let (session, capabilities) := st.session.handleInitialize args
  let st1 := { st with session := session, initialized := true }
  let (m, st2) := st1.createResponse req.seq req.command true none
    (some (.capabilities capabilities))
  return (st2, [m])

/-- `DapServer::handle_launch` (`dap/server.rs` lines 157-172) together with
the session-side effects of `DebugSession::handle_launch`: the submitted
worker tasks are dropped here, as the dispatcher only returns protocol
messages. -/
def handleLaunch (st : DapServer) (req : Request) :
    Except String (DapServer × List ProtocolMessage) := do
  let args ← decodeLaunch req.arguments
  let (session, _tasks) := st.session.handleLaunch args
  let st1 := { st with session := session }
  let (m, st2) := st1.createResponse req.seq req.command true none none
  return (st2, [m])

/-- `DapServer::handle_attach` (`dap/server.rs` lines 174-189). -/
def handleAttach (st : DapServer) (req : Request) :
    Except String (DapServer × List ProtocolMessage) := do
  let args ← decodeAttach req.arguments
  let session := st.session.handleAttach args
  let st1 := { st with session := session }
  let (m, st2) := st1.createResponse req.seq req.command true none none
  return (st2, [m])

/-- `DapServer::handle_configuration_done` (`dap/server.rs` lines 191-202). -/
def handleConfigurationDone (st : DapServer) (req : Request) :
    Except String (DapServer × List ProtocolMessage) :=
  let (m, st') := st.createResponse req.seq req.command true none none
  .ok (st', [m])

/-- `DapServer::handle_set_breakpoints` (`dap/server.rs` lines 204-226). -/
def handleSetBreakpoints (st : DapServer) (req : Request) :
    Except String (DapServer × List ProtocolMessage) := do
  let args ← decodeSetBreakpoints req.arguments
  let (session, body) := st.session.handleSetBreakpoints args
  let st1 := { st with session := session }
  let (m, st2) := st1.createResponse req.seq req.command true none
    (some (.setBreakpoints body))
  return (st2, [m])

/-- `DapServer::handle_continue` (`dap/server.rs` lines 228-247). -/
def handleContinue (st : DapServer) (req : Request) :
    Except String (DapServer × List ProtocolMessage) := do
  let args ← decodeContinue req.arguments
  let ((session, _notified), body) := st.session.handleContinue args
  let st1 := { st with session := session }
  let (m, st2) := st1.createResponse req.seq req.command true none
    (some (.continueResult body))
  return (st2, [m])

/-- `DapServer::handle_next` (`dap/server.rs` lines 249-265); the frame depth
passed to the session is the hard-coded `0` of the source. -/
def handleNext (st : DapServer) (req : Request) :
    Except String (DapServer × List ProtocolMessage) := do
  let args ← decodeNext req.arguments
  let (session, _notified) := st.session.handleNext args 0
  let st1 := { st with session := session }
  let (m, st2) := st1.createResponse req.seq req.command true none none
  return (st2, [m])

/-- `DapServer::handle_step_in` (`dap/server.rs` lines 267-282). -/
def handleStepIn (st : DapServer) (req : Request) :
    Except String (DapServer × List ProtocolMessage) := do
  let args ← decodeStepIn req.arguments
  let (session, _notified) := st.session.handleStepIn args
  let st1 := { st with session := session }
  let (m, st2) := st1.createResponse req.seq req.command true none none
  return (st2, [m])

/-- `DapServer::handle_step_out` (`dap/server.rs` lines 284-300); frame depth
hard-coded to `0` as in the source. -/
def handleStepOut (st : DapServer) (req : Request) :
    Except String (DapServer × List ProtocolMessage) := do
  let args ← decodeStepOut req.arguments
  let (session, _notified) := st.session.handleStepOut args 0
  let st1 := { st with session := session }
  let (m, st2) := st1.createResponse req.seq req.command true none none
  return (st2, [m])

/-- `DapServer::handle_stack_trace` (`dap/server.rs` lines 302-308): always
the "not yet implemented" error, turned into a failed response by
`handle_request`. -/
def handleStackTrace (_st : DapServer) (_req : Request) :
    Except String (DapServer × List ProtocolMessage) :=
  .error "Stack trace not yet implemented"

/-- `DapServer::handle_scopes` (`dap/server.rs` lines 310-329). -/
def handleScopes (st : DapServer) (req : Request) :
    Except String (DapServer × List ProtocolMessage) := do
  let args ← decodeScopes req.arguments
  let (session, body) := st.session.handleScopes args
  let st1 := { st with session := session }
  let (m, st2) := st1.createResponse req.seq req.command true none
    (some (.scopes body))
  return (st2, [m])

/-- `DapServer::handle_variables` (`dap/server.rs` lines 331-350). -/
def handleVariables (st : DapServer) (req : Request) :
    Except String (DapServer × List ProtocolMessage) := do
  let args ← decodeVariables req.arguments
  let (session, body) := st.session.handleVariables args
  let st1 := { st with session := session }
  let (m, st2) := st1.createResponse req.seq req.command true none
    (some (.«variables» body))
  return (st2, [m])

/-- `DapServer::handle_evaluate` (`dap/server.rs` lines 352-371). -/
def handleEvaluate (env : DebugSession.WorkerEnv) (st : DapServer) (req : Request) :
    Except String (DapServer × List ProtocolMessage) := do
  let args ← decodeEvaluate req.arguments
  let body ← st.session.handleEvaluate env args
  let (m, st') := st.createResponse req.seq req.command true none
    (some (.evaluate body))
  return (st', [m])

/-- `DapServer::handle_threads` (`dap/server.rs` lines 373-387). -/
def handleThreads (st : DapServer) (req : Request) :
    Except String (DapServer × List ProtocolMessage) :=
  let (session, body) := st.session.handleThreads
  let st1 := { st with session := session }
  let (m, st2) := st1.createResponse req.seq req.command true none
    (some (.threads body))
  .ok (st2, [m])

/-- The commands of the `match` in `DapServer::handle_request`
(`dap/server.rs` lines 92-118). -/
def supportedCommands : List String :=
  ["initialize", "launch", "attach", "configurationDone", "setBreakpoints",
   "continue", "next", "stepIn", "stepOut", "stackTrace", "scopes",
   "variables", "evaluate", "threads", "disconnect"]

/-- `DapServer::handle_request` (`dap/server.rs` lines 88-133): route by
command; `disconnect` answers success directly; an unknown command answers
`success=false` with the `Unknown command: <cmd>` message; a handler error
becomes a failed response carrying the error text. -/
def handleRequest (env : DebugSession.WorkerEnv) (st : DapServer) (req : Request) :
    DapServer × List ProtocolMessage :=
  let wrap : Except String (DapServer × List ProtocolMessage) →
      DapServer × List ProtocolMessage := fun r =>
    match r with
    | .ok (st', msgs) => (st', msgs)
    | .error e =>
        let (m, st') := st.createResponse req.seq req.command false (some e) none
        (st', [m])
  match req.command with
  | "initialize" => wrap (handleInitialize st req)
  | "launch" => wrap (handleLaunch st req)
  | "attach" => wrap (handleAttach st req)
  | "configurationDone" => wrap (handleConfigurationDone st req)
  | "setBreakpoints" => wrap (handleSetBreakpoints st req)
  | "continue" => wrap (handleContinue st req)
  | "next" => wrap (handleNext st req)
  | "stepIn" => wrap (handleStepIn st req)
  | "stepOut" => wrap (handleStepOut st req)
  | "stackTrace" => wrap (handleStackTrace st req)
  | "scopes" => wrap (handleScopes st req)
  | "variables" => wrap (handleVariables st req)
  | "evaluate" => wrap (handleEvaluate env st req)
  | "threads" => wrap (handleThreads st req)
  | "disconnect" =>
      let (m, st') := st.createResponse req.seq req.command true none none
      (st', [m])
  | cmd =>
      let (m, st') := st.createResponse req.seq cmd false
        (some ("Unknown command: " ++ cmd)) none
      (st', [m])

end DapServer

/-! ## CLI TCP client handler (`cli/src/debug/dap.rs`) -/

/-- `DapLogger::send_output` (`cli/src/debug/dap.rs` lines 151-181): allocate
a seq from the logger's own counter (post-increment) and build the `output`
event written directly to the TCP stream. -/
def dapLoggerSendOutput (counter : Int) (msg category : String) : Int × Event :=
  (counter + 1,
   { seq := counter
     event := "output"
     body := some (.output
       { category := some category
         output := msg ++ "\n"
         group := none
         variablesReference := none
         source := none
         line := none
         column := none }) })

/-- One message written to the TCP stream by `handle_tcp_client`
(`cli/src/debug/dap.rs` lines 221-324): either a message produced by the
`DapServer` (drawing from the server's seq counter) or a console `output`
event produced by the `DapLogger` (drawing from the logger's separate
counter). -/
inductive TcpOutAction where
  | serverResponse (requestSeq : Int) (command : String) (success : Bool)
  | loggerOutput (msg category : String)
  deriving DecidableEq, Repr

/-- The stream of messages written to the TCP client for a list of output
actions, threading the server's seq counter and the logger's counter
independently, as `handle_tcp_client` does.  Each element is tagged `true`
when the message came from the `DapServer`. -/
def runTcpOutputs (st : DapServer) (counter : Int) :
    List TcpOutAction → List (Bool × ProtocolMessage)
  | [] => []
  | .serverResponse rs cmd ok :: rest =>
      let (m, st') := st.createResponse rs cmd ok none none
      (true, m) :: runTcpOutputs st' counter rest
  | .loggerOutput msg cat :: rest =>
      let (counter', e) := dapLoggerSendOutput counter msg cat
      (false, .event e) :: runTcpOutputs st counter' rest

/-- The initial counters of `handle_tcp_client` (`cli/src/debug/dap.rs` lines
231-234): the `DapServer` is fresh (seq 1) and the logger counter starts at
100 "to avoid conflicts with server seq". -/
def tcpSessionOutputs (session : DebugSession) (acts : List TcpOutAction) :
    List (Bool × ProtocolMessage) :=
  runTcpOutputs (DapServer.new session) 100 acts

/-! ## Concrete fixtures

Closed inputs used to evaluate the embedded operations at specific points. -/

/-- A worker-reply environment matching the inline evaluation sentinel. -/
def workerEnv0 : DebugSession.WorkerEnv :=
  { evaluateReply := fun e => .ok ("Evaluation not yet implemented: " ++ e) }

/-- An interpreter environment whose evaluation always succeeds. -/
def evalEnv0 : EvalEnv :=
  { runEval := fun _ => .ok "undefined", runJobs := .ok () }

/-- A one-frame interpreter context. -/
def sampleCtx : EvalCtx :=
  { callStack := [{ functionName := "main", sourcePath := "test.js"
                    lineNumber := 1, columnNumber := 1, pc := 0 }]
    currentFrame := "main" }

/-- A fresh server over a fresh session over a fresh debugger. -/
def freshServer : DapServer := DapServer.new (DebugSession.new Debugger.new)

/-- Continue arguments for thread 1. -/
def contArgs : ContinueArguments := { threadId := 1, singleThread := none }

/-- Next arguments for thread 1. -/
def nextArgs : NextArguments := { threadId := 1, singleThread := none, granularity := none }

/-- A session that is paused and holds the two variable references allocated
by a `scopes` request: the state in which the claim about resume-time clearing
is testable. -/
def pausedScopedSession : DebugSession :=
  let s1 := ((DebugSession.new Debugger.new).handleScopes { frameId := 0 }).1
  { s1 with debugger := s1.debugger.pause }

/-- An attached debugger in `Into` step mode (so `should_pause_for_step` holds
at every depth) with no breakpoints. -/
def steppingDebugger : Debugger :=
  { attached := true, paused := false, shuttingDown := false
    stepMode := .into, breakpoints := [], nextBpId := 1 }

/-- A frame at depth 1 of script 0. -/
def sampleFrame : FrameInfo := { pc := 0, depth := 1, scriptId := some 0 }

/-- The source descriptor `test.js`. -/
def testSource : Source :=
  { name := none, path := some "test.js", sourceReference := none
    presentationHint := none, origin := none }

/-- A `setBreakpoints` request putting one breakpoint at line 5 of
`test.js`. -/
def bpLine5Args : SetBreakpointsArguments :=
  { source := testSource
    breakpoints := some [{ line := 5, column := none, condition := none
                           hitCondition := none, logMessage := none }]
    lines := none, sourceModified := none }

/-- A `setBreakpoints` request for `test.js` with an empty breakpoint list. -/
def bpEmptyArgs : SetBreakpointsArguments :=
  { source := testSource, breakpoints := some []
    lines := none, sourceModified := none }

/-- The session after the line-5 `setBreakpoints` request. -/
def sessionWithBp : DebugSession :=
  ((DebugSession.new Debugger.new).handleSetBreakpoints bpLine5Args).1

/-- A TCP output interleaving: a server response, a console output event, and
another server response. -/
def interleavedActs : List TcpOutAction :=
  [.serverResponse 1 "initialize" true,
   .loggerOutput "hello" "stdout",
   .serverResponse 2 "threads" true]

/-- The seq numbers carried by the messages of `interleavedActs`. -/
def interleavedSeqs : List Int :=
  (tcpSessionOutputs (DebugSession.new Debugger.new) interleavedActs).map
    fun p => p.2.seq

/-- The unknown-command request of the repository's own integration test. -/
def unknownRequest : Request :=
  { seq := 7, command := "unknownCommand", arguments := none }

/-- Empty initialize arguments (everything absent / defaulted). -/
def initArgs0 : InitializeRequestArguments :=
  { clientId := none, clientName := none, adapterId := none, locale := none
    linesStartAt1 := false, columnsStartAt1 := false, pathFormat := none
    supportsVariableType := false, supportsVariablePaging := false
    supportsRunInTerminalRequest := false, supportsMemoryReferences := false
    supportsProgressReporting := false, supportsInvalidatedEvent := false }

/-- The initialize request of the repository's own integration test. -/
def initRequest : Request :=
  { seq := 1, command := "initialize", arguments := some (.initReq initArgs0) }

/-! ## Helper lemmas -/

/-- When the wait loop returns `Ok`, some round observed the paused flag
clear: the loop cannot return `Ok` while every snapshot it saw was paused. -/
theorem waitForResume_ok_mem_unpaused (ctx : EvalCtx) (rounds : List WaitRound)
    (h : (waitForResume ctx rounds).2 = .ok) : ∃ r ∈ rounds, r.paused = false := by
  induction rounds with
  | nil => simp [waitForResume] at h
  | cons r rest ih =>
    rw [waitForResume] at h
    rcases hd : drainTasks ctx r.tasks with ⟨replies, term⟩
    rw [hd] at h
    cases term with
    | true => simp at h
    | false =>
      simp only [Bool.false_eq_true, if_false] at h
      by_cases hp : r.paused = false
      · exact ⟨r, List.mem_cons_self r rest, hp⟩
      · rw [if_neg hp] at h
        by_cases hs : r.shuttingDown
        · rw [if_pos hs] at h; simp at h
        · rw [if_neg hs] at h
          rcases hw : waitForResume ctx rest with ⟨rs, res⟩
          rw [hw] at h
          simp only at h
          obtain ⟨r', hr', hp'⟩ := ih (by rw [hw]; exact h)
          exact ⟨r', List.mem_cons_of_mem r hr', hp'⟩

/-- Every message produced by `runTcpOutputs` carries a seq at least as large
as the corresponding counter's value at the start of the run. -/
theorem runTcpOutputs_seq_lb (acts : List TcpOutAction) :
    ∀ (st : DapServer) (c : Int), ∀ p ∈ runTcpOutputs st c acts,
      (p.1 = true → st.seq ≤ p.2.seq) ∧ (p.1 = false → c ≤ p.2.seq) := by
  induction acts with
  | nil => intro st c p hp; simp [runTcpOutputs] at hp
  | cons a rest ih =>
    intro st c p hp
    cases a with
    | serverResponse rs cmd ok =>
      rw [runTcpOutputs] at hp
      rcases List.mem_cons.mp hp with h | h
      · subst h
        exact ⟨fun _ => le_refl _, fun hf => by simp at hf⟩
      · obtain ⟨h1, h2⟩ := ih _ c p h
        refine ⟨fun ht => le_trans ?_ (h1 ht), h2⟩
        simp [DapServer.createResponse, DapServer.nextSeq]
    | loggerOutput msg cat =>
      rw [runTcpOutputs] at hp
      rcases List.mem_cons.mp hp with h | h
      · subst h
        exact ⟨fun ht => by simp at ht, fun _ => le_refl _⟩
      · obtain ⟨h1, h2⟩ := ih st _ p h
        refine ⟨h1, fun hf => le_trans ?_ (h2 hf)⟩
        simp [dapLoggerSendOutput]

/-! ## Claims -/

/-- C1: in the host-hook wait loop, while the debugger is paused, each drained
task is dispatched as the source prescribes: `Execute` and
`ExecuteNonBlocking` are dropped without evaluation and without any reply;
`Terminate` makes the loop return the terminating error (aborting the drain);
`GetStackTrace` and `Evaluate` are serviced inline and a reply is sent; and on
an empty channel the loop checks the debugger state, returning `Ok` exactly
when the paused flag has become false, returning the shutdown error when the
shutdown flag is set (and still paused), and otherwise sleeping on the
condition variable, i.e. continuing with the next round. -/
theorem wait_loop_dispatches_tasks_and_checks_state (ctx : EvalCtx)
    (src e : String) (fp : Option String) (ts : List EvalTask)
    (p s : Bool) (rest : List WaitRound) :
    drainTasks ctx (.execute src :: ts) = drainTasks ctx ts ∧
    drainTasks ctx (.executeNonBlocking src fp :: ts) = drainTasks ctx ts ∧
    drainTasks ctx (.terminate :: ts) = ([], true) ∧
    drainTasks ctx (.getStackTrace :: ts) =
      (Reply.stackTrace (.ok ctx.callStack) :: (drainTasks ctx ts).1,
       (drainTasks ctx ts).2) ∧
    drainTasks ctx (.evaluate e :: ts) =
      (Reply.evalResult (.ok ("Evaluation not yet implemented: " ++ e)) ::
         (drainTasks ctx ts).1,
       (drainTasks ctx ts).2) ∧
    waitForResume ctx ({ tasks := [], paused := p, shuttingDown := s } :: rest) =
      (if p = false then ([], .ok)
       else if s then ([], .errShutdown)
       else waitForResume ctx rest) := by
  refine ⟨rfl, rfl, rfl, rfl, rfl, ?_⟩
  rw [waitForResume]
  simp only [drainTasks]
  by_cases hp : p = false
  · simp [hp]
  · rw [if_neg hp, if_neg hp]
    by_cases hs : s
    · simp [hs]
    · simp [hs]

/-- C2: `on_debugger_statement` with the DAP host hooks installed (reachable
from the `Debugger` opcode of `vm/opcode/debugger/mod.rs`) unconditionally
sets the paused flag, emits exactly one `Stopped` event whose reason is
`pause`, then enters the wait loop, which can return `Ok` only once a
round observed the debugger resumed (paused flag clear). -/
theorem on_debugger_statement_pauses_and_stops (ctx : EvalCtx) (dbg : Debugger)
    (rounds : List WaitRound) :
    (onDebuggerStatement ctx dbg rounds).1.paused = true ∧
    (onDebuggerStatement ctx dbg rounds).2.1 =
      [DebugEvent.stopped "pause"
        (some ("Paused on debugger statement at " ++ ctx.currentFrame))] ∧
    ((onDebuggerStatement ctx dbg rounds).2.2.2 = .ok →
      ∃ r ∈ rounds, r.paused = false) := by
  refine ⟨rfl, rfl, fun h => ?_⟩
  exact waitForResume_ok_mem_unpaused ctx rounds h

/-- Witness for C2: at a context with one frame, a fresh debugger and a
single round that observes the resume, the hypotheses of the Ok-direction are
satisfied and the wait loop indeed observed the paused flag clear. -/
theorem on_debugger_statement_pauses_and_stops_witness :
    (onDebuggerStatement sampleCtx Debugger.new
        [{ tasks := [], paused := false, shuttingDown := false }]).2.2.2 = .ok ∧
    ∃ r ∈ [({ tasks := [], paused := false, shuttingDown := false } : WaitRound)],
      r.paused = false :=
  ⟨by decide,
   (on_debugger_statement_pauses_and_stops sampleCtx Debugger.new
      [{ tasks := [], paused := false, shuttingDown := false }]).2.2 (by decide)⟩

/-- C3 counterexample: on a paused session holding the two variable references
of a prior `scopes` request, `handle_continue` leaves `variable_references`
non-empty, and `handle_next` neither clears the paused flag nor notifies the
condition variable — so it is false that after any of the four step/continue
requests resume() has been called and `variable_references` is empty. -/
theorem handle_continue_keeps_variable_references :
    (pausedScopedSession.handleContinue contArgs).1.1.variableReferences ≠ [] ∧
    (pausedScopedSession.handleNext nextArgs 0).1.debugger.paused = true ∧
    (pausedScopedSession.handleNext nextArgs 0).2 = false := by
  refine ⟨?_, by decide, by decide⟩
  decide

/-- C3 amended: `handle_continue` calls `resume()` (clearing the paused flag,
setting `running`, clearing `stopped_reason`, and notifying the condition
variable) and answers `all_threads_continued`, while `handle_next`,
`handle_step_in` and `handle_step_out` set the corresponding step mode, set
`running` and clear `stopped_reason` but do not call `resume()` (the paused
flag and the condition variable are untouched); none of the four handlers
clears `variable_references`. -/
theorem step_request_handlers_state (s : DebugSession) (ca : ContinueArguments)
    (na : NextArguments) (sa : StepInArguments) (oa : StepOutArguments) (d : Nat) :
    (s.handleContinue ca).1.1 =
      { s with debugger := s.debugger.resume, running := true, stoppedReason := none } ∧
    (s.handleContinue ca).1.2 = true ∧
    (s.handleContinue ca).2 = { allThreadsContinued := true } ∧
    (s.handleNext na d).1 =
      { s with debugger := s.debugger.stepOver d, running := true, stoppedReason := none } ∧
    (s.handleNext na d).2 = false ∧
    (s.handleNext na d).1.debugger.paused = s.debugger.paused ∧
    (s.handleStepIn sa).1 =
      { s with debugger := s.debugger.stepInto, running := true, stoppedReason := none } ∧
    (s.handleStepIn sa).2 = false ∧
    (s.handleStepIn sa).1.debugger.paused = s.debugger.paused ∧
    (s.handleStepOut oa d).1 =
      { s with debugger := s.debugger.stepOut d, running := true, stoppedReason := none } ∧
    (s.handleStepOut oa d).2 = false ∧
    (s.handleStepOut oa d).1.debugger.paused = s.debugger.paused ∧
    (s.handleContinue ca).1.1.variableReferences = s.variableReferences ∧
    (s.handleNext na d).1.variableReferences = s.variableReferences ∧
    (s.handleStepIn sa).1.variableReferences = s.variableReferences ∧
    (s.handleStepOut oa d).1.variableReferences = s.variableReferences :=
  ⟨rfl, rfl, rfl, rfl, rfl, rfl, rfl, rfl, rfl, rfl, rfl, rfl, rfl, rfl, rfl, rfl⟩

/-- C4 counterexample: on an attached debugger in `Into` step mode,
`should_pause_for_step` holds at the current depth and
`DebuggerHostHooks::on_step` does pause, but it emits no `Stopped` event at
all — in particular no event with reason `step`. -/
theorem host_hooks_on_step_emits_nothing :
    steppingDebugger.shouldPauseForStep sampleFrame.depth = true ∧
    (hostHooksOnStep steppingDebugger sampleFrame).1.paused = true ∧
    (hostHooksOnStep steppingDebugger sampleFrame).2 = [] := by
  refine ⟨by decide, by decide, by decide⟩

/-- C4 amended: `DebuggerHostHooks::on_step` pauses (when attached) if
`should_pause_for_step` holds at the current frame depth, and also — not
"otherwise" — if the frame's script has a breakpoint at the current pc, but
it emits no events; the DAP `DebugHooks::on_step` emits a
`Stopped{reason:"step"}` event exactly when the debugger was already paused at
hook entry, and neither hook ever emits a `Stopped` event with reason
`breakpoint`. -/
theorem on_step_pause_and_events (dbg : Debugger) (frame : FrameInfo)
    (ctx : EvalCtx) (b : Bool) (rounds : List WaitRound) :
    (hostHooksOnStep dbg frame).2 = [] ∧
    (hostHooksOnStep dbg frame).1.paused =
      (dbg.paused || (dbg.attached &&
        (dbg.shouldPauseForStep frame.depth ||
          (match frame.scriptId with
           | some sid => dbg.hasBreakpoint sid frame.pc
           | none => false)))) ∧
    (dapHooksOnStep ctx b rounds).1 =
      (if b then [DebugEvent.stopped "step" (some "Paused on step")] else []) ∧
    (∀ d, DebugEvent.stopped "breakpoint" d ∉ (hostHooksOnStep dbg frame).2) ∧
    (∀ d, DebugEvent.stopped "breakpoint" d ∉ (dapHooksOnStep ctx b rounds).1) := by
  have hev : (hostHooksOnStep dbg frame).2 = [] := by
    rw [hostHooksOnStep]
    split
    · rfl
    · rfl
  refine ⟨hev, ?_, ?_, ?_, ?_⟩
  · rw [hostHooksOnStep]
    rcases frame with ⟨pc, depth, sid⟩
    cases hA : dbg.attached with
    | false => simp [Debugger.isAttached, hA]
    | true =>
      simp only [Debugger.isAttached, hA, Bool.true_eq_false, if_false, Bool.true_and]
      cases hS : dbg.shouldPauseForStep depth with
      | false =>
        simp only [Bool.false_eq_true, if_false, Bool.false_or]
        cases sid with
        | none => simp [Debugger.pause]
        | some sd =>
          cases hB : dbg.hasBreakpoint sd pc with
          | false => simp [hB, Debugger.pause]
          | true => simp [hB, Debugger.pause]
      | true =>
        simp only [if_true, Bool.true_or, Bool.or_true]
        cases sid with
        | none => simp [Debugger.pause]
        | some sd =>
          cases hB : (dbg.pause).hasBreakpoint sd pc with
          | false => simp [hB, Debugger.pause]
          | true => simp [hB, Debugger.pause]
  · cases b with
    | false => rfl
    | true => rfl
  · intro d
    rw [hev]
    exact List.not_mem_nil _
  · intro d
    cases b with
    | false => simp [dapHooksOnStep]
    | true => simp [dapHooksOnStep]

/-- C5: the worker's handling of `ExecuteNonBlocking` (the `ExecuteAsync`
task) emits no debug event at all when evaluation returns — neither on
success nor on error — and the `DebugEvent` type itself has no `Terminated`
variant (every event is a `Stopped` or the `Shutdown` signal), so no
`Terminated` event can reach the session's forwarder from this path. -/
theorem execute_async_emits_no_event (env : EvalEnv) (ctx : EvalCtx)
    (src : String) (fp : Option String) :
    (workerTask env ctx (.executeNonBlocking src fp)).2.1 = [] ∧
    ∀ e : DebugEvent, (∃ r d, e = .stopped r d) ∨ e = .shutdown := by
  constructor
  · rw [workerTask]
    rcases env.runEval src with v | er <;> rcases env.runJobs with u | ej <;> rfl
  · intro e
    cases e with
    | stopped r d => exact Or.inl ⟨r, d, rfl⟩
    | shutdown => exact Or.inr rfl

/-- C6 counterexample: in the TCP mode, the seq numbers of an interleaving of
two server responses around one logger console-output event are `[1, 100, 2]`:
the later server response carries a strictly smaller seq than the earlier
logger event, so outbound seq numbers are not drawn from a single
monotonically increasing per-session counter. -/
theorem tcp_seq_not_single_counter :
    interleavedSeqs = [1, 100, 2] ∧
    ¬ List.Chain' (· < ·) interleavedSeqs := by
  have h : interleavedSeqs = [1, 100, 2] := by decide
  refine ⟨h, ?_⟩
  rw [h]
  intro hc
  have h2 := (List.chain'_cons.mp (List.chain'_cons.mp hc).2).1
  omega

/-- C6 amended: the TCP client handler threads two independent counters — the
server's (starting at 1) for responses and server-created events, and the
logger's (starting at 100) for console `output` events.  Within each origin
the seq numbers are strictly increasing, but the combined outbound stream need
not be: a logger event can carry a larger seq than a later server message. -/
theorem tcp_per_counter_seq_monotonic (acts : List TcpOutAction) :
    ∀ (st : DapServer) (c : Int),
      List.Pairwise (· < ·)
        (((runTcpOutputs st c acts).filter fun p => p.1).map fun p => p.2.seq) ∧
      List.Pairwise (· < ·)
        (((runTcpOutputs st c acts).filter fun p => !p.1).map fun p => p.2.seq) := by
  induction acts with
  | nil => intro st c; simp [runTcpOutputs]
  | cons a rest ih =>
    intro st c
    cases a with
    | serverResponse rs cmd ok =>
      obtain ⟨ih1, ih2⟩ := ih { st with seq := st.seq + 1 } c
      have hrw : runTcpOutputs st c (TcpOutAction.serverResponse rs cmd ok :: rest) =
          (true, ProtocolMessage.response
            { seq := st.seq, requestSeq := rs, success := ok, command := cmd,
              message := none, body := none }) ::
            runTcpOutputs { st with seq := st.seq + 1 } c rest := rfl
      rw [hrw]
      constructor
      · rw [List.filter_cons_of_pos (by rfl), List.map_cons]
        refine List.pairwise_cons.mpr ⟨?_, ih1⟩
        intro y hy
        simp only [List.mem_map, List.mem_filter] at hy
        obtain ⟨q, ⟨hq, hq1⟩, rfl⟩ := hy
        have hlb : st.seq + 1 ≤ ProtocolMessage.seq q.2 :=
          (runTcpOutputs_seq_lb rest { st with seq := st.seq + 1 } c q hq).1 hq1
        show st.seq < ProtocolMessage.seq q.2
        omega
      · rw [List.filter_cons_of_neg (by simp)]
        exact ih2
    | loggerOutput msg cat =>
      obtain ⟨ih1, ih2⟩ := ih st (c + 1)
      have hrw : runTcpOutputs st c (TcpOutAction.loggerOutput msg cat :: rest) =
          (false, ProtocolMessage.event
            { seq := c, event := "output"
              body := some (.output
                { category := some cat, output := msg ++ "\n", group := none
                  variablesReference := none, source := none, line := none
                  column := none }) }) ::
            runTcpOutputs st (c + 1) rest := rfl
      rw [hrw]
      constructor
      · rw [List.filter_cons_of_neg (by simp)]
        exact ih1
      · rw [List.filter_cons_of_pos (by rfl), List.map_cons]
        refine List.pairwise_cons.mpr ⟨?_, ih2⟩
        intro y hy
        simp only [List.mem_map, List.mem_filter] at hy
        obtain ⟨q, ⟨hq, hq1⟩, rfl⟩ := hy
        have hq0 : q.1 = false := by
          cases hqq : q.1 with
          | true => rw [hqq] at hq1; simp at hq1
          | false => rfl
        have hlb : c + 1 ≤ ProtocolMessage.seq q.2 :=
          (runTcpOutputs_seq_lb rest st (c + 1) q hq).2 hq0
        show c < ProtocolMessage.seq q.2
        omega

/-- Part of C7's amendment, proved separately: the breakpoint-setting loop
only adds (or overwrites same-keyed) entries — every previously set breakpoint
whose `(script, line)` key is not re-set by the new list is still present
afterwards. -/
theorem setBreakpointsLoop_retains (src : Source) (scriptId : Nat) :
    ∀ (bps : List SourceBreakpoint) (s : DebugSession) (old : (Nat × Nat) × Nat),
      old ∈ s.debugger.breakpoints →
      (∀ bp ∈ bps, old.1 ≠ (scriptId, bp.line.toNat)) →
      old ∈ (DebugSession.setBreakpointsLoop src scriptId s bps).1.debugger.breakpoints := by
  intro bps
  induction bps with
  | nil =>
    intro s old hold _
    simpa [DebugSession.setBreakpointsLoop] using hold
  | cons bp rest ih =>
    intro s old hold hkey
    have hmem : old ∈ (s.debugger.setBreakpoint scriptId bp.line.toNat).2.breakpoints := by
      simp only [Debugger.setBreakpoint, List.mem_cons, List.mem_filter]
      exact Or.inr ⟨hold, by simpa using hkey bp (List.mem_cons_self bp rest)⟩
    exact ih
      { s with
          debugger := (s.debugger.setBreakpoint scriptId bp.line.toNat).2
          nextBreakpointId := s.nextBreakpointId + 1
          breakpointMapping :=
            (s.nextBreakpointId, (s.debugger.setBreakpoint scriptId bp.line.toNat).1) ::
              s.breakpointMapping }
      old hmem (fun b hb => hkey b (List.mem_cons_of_mem bp hb))

/-- C7 counterexample: after setting a breakpoint at line 5 of `test.js`, a
`setBreakpoints` request for the same source with an empty breakpoints array
leaves the debugger's breakpoint table unchanged — the source still has its
breakpoint, contradicting both the replace-wholesale and the
empty-array-clears behaviour. -/
theorem set_breakpoints_empty_does_not_clear :
    (sessionWithBp.handleSetBreakpoints bpEmptyArgs).1.debugger.breakpoints ≠ [] ∧
    (sessionWithBp.handleSetBreakpoints bpEmptyArgs).1.debugger.breakpoints =
      sessionWithBp.debugger.breakpoints := by
  exact ⟨by decide, by decide⟩

/-- C7 amended: `handle_set_breakpoints` never removes previously set
breakpoints: an empty `breakpoints` array leaves the debugger's breakpoint
table unchanged and returns an empty response list, and in general every
previously set breakpoint whose `(script, line)` key is not among the newly
requested ones survives the request's setting loop. -/
theorem set_breakpoints_never_clears (s : DebugSession) (src : Source)
    (ls : Option (List Int)) (sm : Option Bool) :
    (s.handleSetBreakpoints
        { source := src, breakpoints := some [], lines := ls,
          sourceModified := sm }).1.debugger.breakpoints = s.debugger.breakpoints ∧
    (s.handleSetBreakpoints
        { source := src, breakpoints := some [], lines := ls,
          sourceModified := sm }).2 = { breakpoints := [] } ∧
    ∀ (scriptId : Nat) (bps : List SourceBreakpoint) (old : (Nat × Nat) × Nat),
      old ∈ s.debugger.breakpoints →
      (∀ bp ∈ bps, old.1 ≠ (scriptId, bp.line.toNat)) →
      old ∈ (DebugSession.setBreakpointsLoop src scriptId s bps).1.debugger.breakpoints := by
  refine ⟨?_, ?_, fun scriptId bps old hold hkey =>
    setBreakpointsLoop_retains src scriptId bps s old hold hkey⟩
  · rw [DebugSession.handleSetBreakpoints]
    cases hl : s.sourceToScript.lookup (src.path.getD (src.name.getD "unknown")) with
    | none => simp [hl, DebugSession.setBreakpointsLoop]
    | some sid => simp [hl, DebugSession.setBreakpointsLoop]
  · rw [DebugSession.handleSetBreakpoints]
    cases hl : s.sourceToScript.lookup (src.path.getD (src.name.getD "unknown")) with
    | none => simp [hl, DebugSession.setBreakpointsLoop]
    | some sid => simp [hl, DebugSession.setBreakpointsLoop]

/-- Witness for C7's amendment: the line-5 breakpoint survives a subsequent
setting loop for line 9 of the same script. -/
theorem set_breakpoints_never_clears_witness :
    (((0, 5), 1) : (Nat × Nat) × Nat) ∈ sessionWithBp.debugger.breakpoints ∧
    (((0, 5), 1) : (Nat × Nat) × Nat) ∈
      (DebugSession.setBreakpointsLoop testSource 0 sessionWithBp
        [{ line := 9, column := none, condition := none, hitCondition := none,
           logMessage := none }]).1.debugger.breakpoints :=
  ⟨by decide,
   (set_breakpoints_never_clears sessionWithBp testSource none none).2.2 0
     [{ line := 9, column := none, condition := none, hitCondition := none,
        logMessage := none }] ((0, 5), 1) (by decide) (by decide)⟩

/-- C8: the response to an unsupported command carries
`message = "Unknown command: <cmd>"` with no "(not implemented)" suffix — the
phrase `not implemented` the spec (and the repository's own integration test
`test_dap_server_unknown_command`) requires does not occur in it. -/
theorem unknown_command_message_lacks_not_implemented :
    (DapServer.handleRequest workerEnv0 freshServer unknownRequest).2 =
      [ProtocolMessage.response
         { seq := 1, requestSeq := 7, success := false, command := "unknownCommand",
           message := some "Unknown command: unknownCommand", body := none }] ∧
    "unknownCommand" ∉ DapServer.supportedCommands ∧
    ¬ ("not implemented".data <:+: "Unknown command: unknownCommand".data) := by
  exact ⟨by decide, by decide, by decide⟩

/-- C9: the dispatcher's answer to an initialize request with decodable
arguments is exactly one message — the success response whose capability body
has `supportsConfigurationDoneRequest = true` — and no `initialized` event is
produced, although the spec and the repository's own integration test
`test_dap_server_initialize` expect one after the response. -/
theorem initialize_produces_no_initialized_event :
    (DapServer.handleRequest workerEnv0 freshServer initRequest).2 =
      [ProtocolMessage.response
         { seq := 1, requestSeq := 1, success := true, command := "initialize",
           message := none
           body := some (.capabilities
             { supportsConfigurationDoneRequest := true
               supportsFunctionBreakpoints := false
               supportsConditionalBreakpoints := true
               supportsHitConditionalBreakpoints := true
               supportsEvaluateForHovers := true
               supportsStepBack := false
               supportsSetVariable := false
               supportsRestartFrame := false
               supportsGotoTargetsRequest := false
               supportsStepInTargetsRequest := false
               supportsCompletionsRequest := false
               supportsModulesRequest := false
               supportsRestartRequest := false
               supportsExceptionOptions := false
               supportsValueFormattingOptions := true
               supportsExceptionInfoRequest := false
               supportsTerminateDebuggee := true
               supportsDelayedStackTraceLoading := false
               supportsLoadedSourcesRequest := false
               supportsLogPoints := true
               supportsTerminateThreadsRequest := false
               supportsSetExpression := false
               supportsTerminateRequest := true
               supportsDataBreakpoints := false
               supportsReadMemoryRequest := false
               supportsDisassembleRequest := false
               supportsCancelRequest := false
               supportsBreakpointLocationsRequest := false
               supportsClipboardContext := false }) }] ∧
    ((DapServer.handleRequest workerEnv0 freshServer initRequest).2.filter
        ProtocolMessage.isEvent) = [] := by
  exact ⟨by decide, by decide⟩

/-- C10: a variables request with decodable arguments — whatever the
`variablesReference`, including one freshly allocated by a preceding scopes
request — yields a single success response whose variables list is empty, and
the session handler returns the empty list from any session state. -/
theorem variables_response_always_empty (st : DapServer)
    (env : DebugSession.WorkerEnv) (a : VariablesArguments) (rseq : Int)
    (s : DebugSession) (sc : ScopesArguments) :
    DapServer.handleRequest env st
        { seq := rseq, command := "variables", arguments := some (.«variables» a) } =
      ({ st with seq := st.seq + 1 },
       [ProtocolMessage.response
          { seq := st.seq, requestSeq := rseq, success := true, command := "variables",
            message := none, body := some (.«variables» { «variables» := [] }) }]) ∧
    s.handleVariables a = (s, { «variables» := [] }) ∧
    ((s.handleScopes sc).1).handleVariables a =
      ((s.handleScopes sc).1, { «variables» := [] }) :=
  ⟨rfl, rfl, rfl⟩

end BoaDap
